import Mathlib

/-!
Verification of the session/pagination controller, reaction-queue restore
path and input dispatch of `BrowseTabContent.vue` (atlas-v2), via a shallow
embedding of the component's script into Lean.

Conventions of the embedding:
* JS values that may be a number, a string, `null` or `undefined`
  (pagination tokens) are `Option PVal`, with `none` standing for both
  `null` and `undefined` (the source only ever tests them together, via
  `!== undefined && !== null` or `??`).
* Reactive refs become fields of explicit state records; calls out to
  collaborators (the tiling/masonry instance, the file viewer, parent
  callbacks) become events in an explicit trace, in source order.
* Promise results are passed in as `Except` values; the `await` points are
  sequencing points of the pure function.
-/

namespace BrowseTabContent

/-- A JS pagination token value: either a page number or a cursor string
(`string | number` in the source). -/
inductive PVal where
  | num (n : Int)
  | str (s : String)
deriving DecidableEq, Repr

/-- The fields of a masonry item that this component reads: its `id` and its
preview `src` URL. -/
structure MasonryItem where
  id : Nat
  src : String
deriving DecidableEq, Repr

/-- `tab.queryParams` as read by the component: `service`, `page`, `next`. -/
structure QueryParams where
  service : Option String
  page : Option PVal
  next : Option PVal
deriving DecidableEq, Repr

/-- The slice of `BrowseTabData` the component reads and writes:
`id`, `queryParams`, `fileIds`, `itemsData`. -/
structure Tab where
  id : Nat
  queryParams : QueryParams
  fileIds : List Nat
  itemsData : List MasonryItem
deriving DecidableEq, Repr

/-- The masonry (tiling collaborator) instance as observed at a cleanup
point: only its `isLoading` flag matters there. -/
structure MasonryInst where
  isLoading : Bool
deriving DecidableEq, Repr

/-- Collaborator calls made during `initializeTab` / `onUnmounted`, in
source order. -/
inductive InitEvent where
  | closeViewer
  | cancelLoad
  | destroy
  | installState
  | tabDataLoading (isLoading : Bool)
  | loadTabItemsCall (tabId : Nat)
  | loadFailed
  | waited (retries : Nat)
  | masonryInitCall (itemsData : List MasonryItem) (page : PVal) (next : Option PVal)
  | refreshLayout
  | loadingEmit (isLoading : Bool)
  | loadingChange (isLoading : Bool)
deriving DecidableEq, Repr

/-- `const tabHasRestorableItems = (tab.fileIds?.length ?? 0) > 0 || (tab.itemsData?.length ?? 0) > 0`. -/
def tabHasRestorableItems (tab : Tab) : Bool :=
  tab.fileIds.length > 0 || tab.itemsData.length > 0

/-- `selectedService.value = serviceFromQuery || ''` (a missing service and
the empty string both yield the empty string). -/
def serviceOf (tab : Tab) : String :=
  (tab.queryParams.service).getD ""

/-- `const hasService = typeof serviceValue === 'string' && serviceValue.length > 0`. -/
def hasService (tab : Tab) : Bool :=
  match tab.queryParams.service with
  | some s => s.length > 0
  | none => false

/-- `tab.itemsData` after the reload section of `initializeTab`: when
`tab.fileIds` is non-empty, the result of `await loadTabItems(tab.id)` on
success and `[]` on rejection (the `catch` branch); when `fileIds` is
empty, `[]` unconditionally. -/
def postLoadItemsData (tab : Tab) (loadResult : Except String (List MasonryItem)) :
    List MasonryItem :=
  if tab.fileIds.isEmpty then []
  else
    match loadResult with
    | .ok loaded => loaded
    | .error _ => []

/-- Trace of the reload section: `onTabDataLoadingChange(true)` (when the
optional callback is provided), the `loadTabItems` call, the logged failure
on rejection, and the `finally` block's `onTabDataLoadingChange(false)`. -/
def loadPhaseTrace (tab : Tab) (hasTabDataCb : Bool)
    (loadResult : Except String (List MasonryItem)) : List InitEvent :=
  if tab.fileIds.isEmpty then []
  else
    (if hasTabDataCb then [InitEvent.tabDataLoading true] else [])
      ++ [InitEvent.loadTabItemsCall tab.id]
      ++ (match loadResult with | .ok _ => [] | .error _ => [InitEvent.loadFailed])
      ++ (if hasTabDataCb then [InitEvent.tabDataLoading false] else [])

/-- The polling loop `while (!masonry.value && retries < 20)`, written with
explicit fuel `20 - retries` so that the recursion is structural; `availAt k`
is the read of `masonry.value` at the loop test after `k` increments.
Returns the final value of `retries`. -/
def waitRetriesAux (availAt : Nat → Bool) : Nat → Nat → Nat
  | 0, retries => retries
  | fuel + 1, retries =>
    if !availAt retries then waitRetriesAux availAt fuel (retries + 1) else retries

/-- `let retries = 0; while (!masonry.value && retries < 20) { ...; retries++ }`. -/
def waitRetries (availAt : Nat → Bool) : Nat :=
  waitRetriesAux availAt 20 0

/-- Inputs of one run of `initializeTab`: the tab, the masonry instance
present on entry (line 349), whether the file viewer is open, whether the
optional `onTabDataLoadingChange` prop was provided, the outcome of the
`loadTabItems` promise, and the masonry-ref availability at each poll of the
wait loop. -/
structure InitInput where
  tab : Tab
  masonry : Option MasonryInst
  viewerOpen : Bool
  hasTabDataCb : Bool
  loadResult : Except String (List MasonryItem)
  availAt : Nat → Bool

/-- State of the component's refs after `initializeTab` returns, plus the
tab's (mutated) `itemsData` and the collaborator-call trace. -/
structure InitOutput where
  currentPage : Option PVal
  nextCursor : Option PVal
  loadAtPage : Option PVal
  isTabRestored : Bool
  isTabRestoredDuringInit : Bool
  pendingRestoreNextCursor : Option PVal
  selectedService : String
  items : List MasonryItem
  tabItemsData : List MasonryItem
  trace : List InitEvent

/-- Cleanup prefix of `initializeTab` (lines 344-354): close the file
viewer if open; on an existing masonry instance, `cancelLoad()` when
`isLoading` and then `destroy()` unconditionally. -/
def initHeaderTrace (viewerOpen : Bool) (masonry : Option MasonryInst) : List InitEvent :=
  (if viewerOpen then [InitEvent.closeViewer] else [])
    ++ (match masonry with
        | none => []
        | some m =>
          (if m.isLoading then [InitEvent.cancelLoad] else []) ++ [InitEvent.destroy])

/-- Trace of the masonry-initialization section (lines 427-459): runs only
when the reloaded `itemsData` is non-empty; records the wait loop's final
retry count, then — if the masonry ref became available — the
`masonry.init(tab.itemsData, pageValue, nextValue)` call followed by the
`refreshLayout` pass (the init call hands the non-empty restored list to
the collaborator, so `items.value.length > 0` holds at the
`requestAnimationFrame` check). -/
def initPhaseTrace (tab : Tab) (itemsData : List MasonryItem) (availAt : Nat → Bool) :
    List InitEvent :=
  if itemsData.isEmpty then []
  else
    InitEvent.waited (waitRetries availAt) ::
      (if availAt (waitRetries availAt) then
        [InitEvent.masonryInitCall itemsData ((tab.queryParams.page).getD (PVal.num 1))
            (tab.queryParams.next),
          InitEvent.refreshLayout]
      else [])

/-- Trace of everything `initializeTab` does after installing the new tab's
state (line 357 onward): the item reload, then the masonry initialization. -/
def initTailTrace (input : InitInput) : List InitEvent :=
  loadPhaseTrace input.tab input.hasTabDataCb input.loadResult
    ++ initPhaseTrace input.tab (postLoadItemsData input.tab input.loadResult) input.availAt

/-- Shallow embedding of `initializeTab` (lines 339-462), with each `let`
mirroring the corresponding source assignment in order. `currentPage` /
`nextCursor` are first restored from `queryParams` (lines 390-402) and then
conditionally re-assigned inside the masonry-init branch (lines 436-445);
the collaborator's `init` installs the restored list into `items` via its
model binding (spec section 4.1: the restored list is handed over by an
explicit initialization call). -/
def initializeTab (input : InitInput) : InitOutput :=
  let tab := input.tab
  let restorable := tabHasRestorableItems tab
  let pageFromQuery := tab.queryParams.page
  let nextFromQuery := tab.queryParams.next
  let pendingRestore := if restorable then nextFromQuery else none
  let itemsData1 := postLoadItemsData tab input.loadResult
  let currentPage1 : Option PVal :=
    match pageFromQuery with
    | some p => some p
    | none => some (PVal.num 1)
  let nextCursor1 : Option PVal :=
    match nextFromQuery with
    | some v => some v
    | none => none
  let loadAtPage1 : Option PVal :=
    if !itemsData1.isEmpty then none
    else if hasService tab then
      (match pageFromQuery with
        | some p => some p
        | none => some (PVal.num 1))
    else none
  let ready := !itemsData1.isEmpty && input.availAt (waitRetries input.availAt)
  let pageValue := pageFromQuery.getD (PVal.num 1)
  let nextValue := nextFromQuery
  let currentPage2 := if ready then some pageValue else currentPage1
  let nextCursor2 :=
    if ready then (match nextValue with | some v => some v | none => nextCursor1)
    else nextCursor1
  let items2 := if ready then itemsData1 else []
  { currentPage := currentPage2
    nextCursor := nextCursor2
    loadAtPage := loadAtPage1
    isTabRestored := false
    isTabRestoredDuringInit := restorable
    pendingRestoreNextCursor := pendingRestore
    selectedService := serviceOf tab
    items := items2
    tabItemsData := itemsData1
    trace := initHeaderTrace input.viewerOpen input.masonry
      ++ InitEvent.installState :: initTailTrace input }

/-- Shallow embedding of the `onUnmounted` hook (lines 465-479): emit
`update:loading false`, call the optional `onLoadingChange(false)`, then on
an existing masonry instance `cancelLoad()` when loading and `destroy()`
unconditionally. -/
def onUnmountedTrace (hasLoadingCb : Bool) (masonry : Option MasonryInst) : List InitEvent :=
  InitEvent.loadingEmit false ::
    (if hasLoadingCb then [InitEvent.loadingChange false] else [])
      ++ (match masonry with
          | none => []
          | some m =>
            (if m.isLoading then [InitEvent.cancelLoad] else []) ++ [InitEvent.destroy])

/-- A reaction type: `'love' | 'like' | 'dislike' | 'funny'`. -/
inductive RType where
  | love
  | like
  | dislike
  | funny
deriving DecidableEq, Repr

/-- Calls made by `handleMasonryReaction` (lines 203-254), in source order:
the optimistic `removeItem(item)` call, the `queueReaction(...)` call
(recording whether a restore callback was bound, the preview URL, the tab
id, the captured index — `-1` when the item is absent — and the captured
item), and the `props.onReaction` emission. -/
inductive RQEvent where
  | removeItemCall (item : MasonryItem)
  | queueReactionCall (fileId : Nat) (t : RType) (previewUrl : Option String)
      (hasRestoreCb : Bool) (tabId : Option Nat) (itemIndex : Int) (item : Option MasonryItem)
  | onReactionEmit (fileId : Nat) (t : RType)
deriving DecidableEq, Repr

/-- Shallow embedding of `handleMasonryReaction` (lines 203-254). The item
and its index are captured up front; the restore callback is bound only
when the item was found, the tab id is defined and the index is not `-1`;
`removeItem(item)` runs only when the item was found; `queueReaction` and
`props.onReaction` always run. -/
def handleMasonryReaction (items : List MasonryItem) (tabId : Option Nat)
    (fileId : Nat) (t : RType) : List RQEvent :=
  let item := items.find? (fun i => i.id == fileId)
  let itemIndex : Int :=
    match item with
    | some _ => ((items.findIdx (fun i => i.id == fileId) : Nat) : Int)
    | none => -1
  let hasRestoreCb := item.isSome && tabId.isSome && (itemIndex != -1)
  (match item with | some it => [RQEvent.removeItemCall it] | none => [])
    ++ [RQEvent.queueReactionCall fileId t (item.map (fun i => i.src)) hasRestoreCb
          tabId itemIndex item,
        RQEvent.onReactionEmit fileId t]

/-- `items.splice(i, 0, a)` for `i ≤ items.length`: insert `a` at index `i`. -/
def spliceInsert (l : List MasonryItem) (i : Nat) (a : MasonryItem) : List MasonryItem :=
  l.take i ++ a :: l.drop i

/-- The optional capabilities probed on the masonry instance by the restore
callback: `restore`, `add`, `insert`, `refreshLayout`. -/
structure MasonryCaps where
  hasRestore : Bool
  hasAdd : Bool
  hasInsert : Bool
  hasRefreshLayout : Bool
deriving DecidableEq, Repr

/-- Calls the restore callback makes on the tiling collaborator. -/
inductive RestoreEvent where
  | restoreCall (idx : Nat)
  | addCall (idx : Nat)
  | insertCall (idx : Nat)
  | refreshLayoutCall
deriving DecidableEq, Repr

/-- Modelled from the spec: the tiling collaborator's optional
`restore(item, index)` / `add(item, index)` / `insert(item, index)`
capabilities (spec sections 4.2 and 6) are outside this repository; per the
spec's reinsertion contract they place the item into the shared list at the
clamped index `min(index, length)`. -/
def capInsert (items : List MasonryItem) (idx : Nat) (item : MasonryItem) :
    List MasonryItem :=
  spliceInsert items (min idx items.length) item

/-- Shallow embedding of the restore callback bound in
`handleMasonryReaction` (lines 213-242): no-op when the owning tab is no
longer active; no-op when an item with the captured id is already present;
otherwise reinsert — delegating to the collaborator's `restore` / `add` /
`insert` capability when offered, else splicing at the clamped index and
requesting `refreshLayout` when that capability exists. Returns the
resulting item list and the collaborator calls made. -/
def restoreItemCallback (item : MasonryItem) (itemIndex : Nat) (restoreTabId : Nat)
    (isTabActive : Nat → Bool) (items : List MasonryItem)
    (masonry : Option MasonryCaps) : List MasonryItem × List RestoreEvent :=
  if !isTabActive restoreTabId then (items, [])
  else if (items.findIdx? (fun i => i.id == item.id)).isSome then (items, [])
  else
    match masonry with
    | some caps =>
      if caps.hasRestore then (capInsert items itemIndex item, [RestoreEvent.restoreCall itemIndex])
      else if caps.hasAdd then (capInsert items itemIndex item, [RestoreEvent.addCall itemIndex])
      else if caps.hasInsert then (capInsert items itemIndex item, [RestoreEvent.insertCall itemIndex])
      else
        (spliceInsert items (min itemIndex items.length) item,
          if caps.hasRefreshLayout then [RestoreEvent.refreshLayoutCall] else [])
    | none => (spliceInsert items (min itemIndex items.length) item, [])

/-- Modelled from the spec: the tiling collaborator's `remove(item)` (spec
section 6) removes the matching entry from the shared list through the
model binding, as the source's own comment at lines 580-586 records. -/
def masonryRemoveEffect (items : List MasonryItem) (target : MasonryItem) :
    List MasonryItem :=
  items.eraseP (fun i => i.id == target.id)

/-- Context of the `remove-from-masonry` callback: whether a masonry
instance is mounted, and whether its `remove` call's model-binding update
has landed by the time of the backup check (the source comment notes the
sync may be delayed in test environments). -/
structure RemovalCtx where
  masonryPresent : Bool
  modelSyncApplied : Bool
deriving DecidableEq, Repr

/-- Shallow embedding of the `remove-from-masonry` callback handed to the
`FileViewer` (lines 574-592): delegate to `masonry.remove` on the entry
whose id matches, then — as a backup — erase the entry at
`items.findIndex(i => i.id === item.id)` if one still exists. -/
def removeFromMasonry (ctx : RemovalCtx) (items : List MasonryItem)
    (item : MasonryItem) : List MasonryItem :=
  let items1 :=
    if ctx.masonryPresent && (items.find? (fun i => i.id == item.id)).isSome
        && ctx.modelSyncApplied then
      masonryRemoveEffect items item
    else items
  match items1.findIdx? (fun i => i.id == item.id) with
  | some j => items1.eraseIdx j
  | none => items1

/-- The `type` of the dispatched DOM mouse event. -/
inductive EType where
  | click
  | contextmenu
  | mousedown
deriving DecidableEq, Repr

/-- The fields of a `MouseEvent` this component reads: `altKey`, `button`,
`type`. -/
structure MouseEv where
  altKey : Bool
  button : Nat
  etype : EType
deriving DecidableEq, Repr

/-- Observable effects of the masonry click/mousedown handlers:
`preventDefault` / `stopPropagation` on the event, opening the overlay
(`fileViewer.openFromClick`), or a `handleMasonryReaction` call. -/
inductive UIEffect where
  | preventDefault
  | stopPropagation
  | openOverlay
  | reaction (e : RQEvent)
deriving DecidableEq, Repr

/-- The reaction-type decision of `handleAltClickReaction` (lines 170-183):
left button maps to like, right button or a contextmenu event to dislike,
middle button to love, anything else to none. -/
def altReactionType (e : MouseEv) : Option RType :=
  if e.button == 0 || (e.etype == EType.click && e.button == 0) then some RType.like
  else if e.button == 2 || e.etype == EType.contextmenu then some RType.dislike
  else if e.button == 1 then some RType.love
  else none

/-- Shallow embedding of `handleAltClickReaction` (lines 165-200):
`preventDefault` and `stopPropagation` always run; when a reaction type is
decided and the file id is found in the item list, the handler calls
`handleMasonryReaction` with that type. -/
def handleAltClickReaction (e : MouseEv) (fileId : Nat) (items : List MasonryItem)
    (tabId : Option Nat) : List UIEffect :=
  [UIEffect.preventDefault, UIEffect.stopPropagation]
    ++ (match altReactionType e with
        | some t =>
          if (items.find? (fun i => i.id == fileId)).isSome then
            (handleMasonryReaction items tabId fileId t).map UIEffect.reaction
          else []
        | none => [])

/-- Shallow embedding of `handleAltClickOnMasonry` (lines 129-163). The DOM
walk that resolves the event target to a tile's file id (the
`data-item-id` attribute, with the image-src fallback) is abstracted as
`hit`: `none` when no tile resolves, in which case the handler does
nothing. -/
def handleAltClickOnMasonry (e : MouseEv) (items : List MasonryItem)
    (tabId : Option Nat) (hit : Option Nat) : List UIEffect :=
  match hit with
  | none => []
  | some fileId => handleAltClickReaction e fileId items tabId

/-- Shallow embedding of `onMasonryClick` (lines 109-120): with ALT held,
delegate to the quick-reaction path and return; otherwise a left click
opens the overlay. -/
def onMasonryClick (e : MouseEv) (items : List MasonryItem) (tabId : Option Nat)
    (hit : Option Nat) : List UIEffect :=
  if e.altKey then handleAltClickOnMasonry e items tabId hit
  else if e.button == 0 || (e.etype == EType.click && e.button == 0) then
    [UIEffect.openOverlay]
  else []

/-- Shallow embedding of `onMasonryMouseDown` (lines 122-127): only
ALT + middle button is handled. -/
def onMasonryMouseDown (e : MouseEv) (items : List MasonryItem) (tabId : Option Nat)
    (hit : Option Nat) : List UIEffect :=
  if e.altKey && e.button == 1 then handleAltClickOnMasonry e items tabId hit
  else []

/-- A user mouse gesture on the masonry container. -/
inductive Gesture where
  | leftClick
  | rightClick
  | middleClick
deriving DecidableEq, Repr

/-- The DOM event a gesture produces on the container: a left click fires
`click` (button 0), a right click fires `contextmenu` (button 2), a middle
click fires `mousedown` (button 1). -/
def gestureEvent (alt : Bool) : Gesture → MouseEv
  | Gesture.leftClick => ⟨alt, 0, EType.click⟩
  | Gesture.rightClick => ⟨alt, 2, EType.contextmenu⟩
  | Gesture.middleClick => ⟨alt, 1, EType.mousedown⟩

/-- Template dispatch (line 514): `@click="onMasonryClick"`,
`@contextmenu.prevent="onMasonryClick"` (the `.prevent` modifier always
calls `preventDefault` first), `@mousedown="onMasonryMouseDown"`. -/
def dispatchGesture (alt : Bool) (g : Gesture) (items : List MasonryItem)
    (tabId : Option Nat) (hit : Option Nat) : List UIEffect :=
  match g with
  | Gesture.leftClick => onMasonryClick (gestureEvent alt Gesture.leftClick) items tabId hit
  | Gesture.rightClick =>
    UIEffect.preventDefault :: onMasonryClick (gestureEvent alt Gesture.rightClick) items tabId hit
  | Gesture.middleClick => onMasonryMouseDown (gestureEvent alt Gesture.middleClick) items tabId hit

/-- The reaction each ALT gesture maps to: left click like, right click
dislike, middle click love. -/
def altGestureReaction : Gesture → RType
  | Gesture.leftClick => RType.like
  | Gesture.rightClick => RType.dislike
  | Gesture.middleClick => RType.love

/-- C1: after `initializeTab` completes, `currentPage` equals the persisted
`queryParams.page` token verbatim when present (a cursor string is never
coerced to the first-page value 1) and is 1 when it is absent, and
`nextCursor` equals the persisted `queryParams.next` when present and null
otherwise. -/
theorem initializeTab_restores_page_and_cursor_verbatim (input : InitInput) :
    (initializeTab input).currentPage
        = some ((input.tab.queryParams.page).getD (PVal.num 1))
      ∧ (initializeTab input).nextCursor = input.tab.queryParams.next := by
  unfold initializeTab
  dsimp only
  constructor
  · cases h : input.tab.queryParams.page <;> split <;> simp [h]
  · cases h : input.tab.queryParams.next <;> split <;> simp [h]

/-- C4: after `initializeTab` completes, `loadAtPage` is null when the tab
ended up with pre-loaded item snapshots (`tab.itemsData` non-empty) and
also when no service is selected; otherwise it is the persisted page token
when present and the first page 1 otherwise — so a tab with no service set
never has a fetch trigger installed. -/
theorem initializeTab_loadAtPage_policy (input : InitInput) :
    (initializeTab input).loadAtPage =
      (if (initializeTab input).tabItemsData.isEmpty then
        (if hasService input.tab then
          some ((input.tab.queryParams.page).getD (PVal.num 1))
        else none)
      else none) := by
  unfold initializeTab
  dsimp only
  cases h : (postLoadItemsData input.tab input.loadResult).isEmpty <;>
    cases hp : input.tab.queryParams.page <;> simp [h, hp]

/-- C8: every completed run of `initializeTab` — the item-load-failure path
included, since the failure is caught — leaves `isTabRestored` false on
return; during initialization it is set exactly when the tab had restorable
items, so it is true only transiently. -/
theorem initializeTab_clears_isTabRestored (input : InitInput) :
    (initializeTab input).isTabRestored = false
      ∧ (initializeTab input).isTabRestoredDuringInit = tabHasRestorableItems input.tab :=
  ⟨rfl, rfl⟩

/-- The fueled wait loop increments `retries` at most `fuel` times. -/
theorem waitRetriesAux_le (availAt : Nat → Bool) (fuel r : Nat) :
    waitRetriesAux availAt fuel r ≤ r + fuel := by
  induction fuel generalizing r with
  | zero => simp [waitRetriesAux]
  | succ k ih =>
    unfold waitRetriesAux
    split
    · exact le_trans (ih (r + 1)) (by omega)
    · omega

/-- The wait loop of `initializeTab` performs at most 20 retries. -/
theorem waitRetries_le_twenty (availAt : Nat → Bool) : waitRetries availAt ≤ 20 := by
  have h := waitRetriesAux_le availAt 20 0
  simpa [waitRetries] using h

theorem waited_not_mem_initHeaderTrace (n : Nat) (v : Bool) (m : Option MasonryInst) :
    InitEvent.waited n ∉ initHeaderTrace v m := by
  unfold initHeaderTrace
  cases m <;> split <;> simp_all

theorem waited_not_mem_loadPhaseTrace (n : Nat) (tab : Tab) (cb : Bool)
    (res : Except String (List MasonryItem)) :
    InitEvent.waited n ∉ loadPhaseTrace tab cb res := by
  unfold loadPhaseTrace
  split
  · simp
  · cases res <;> split <;> simp_all

theorem waited_mem_initPhaseTrace (n : Nat) (tab : Tab) (d : List MasonryItem)
    (availAt : Nat → Bool) :
    InitEvent.waited n ∈ initPhaseTrace tab d availAt → n = waitRetries availAt := by
  unfold initPhaseTrace
  split
  · simp
  · split <;> simp_all

/-- C7: the polling loop in `initializeTab` that waits for the masonry
collaborator to mount performs at most 20 retries — the retry count it
records is bounded by 20 whatever the availability history, so the wait
terminates even when the collaborator never becomes available. -/
theorem initializeTab_wait_bounded (input : InitInput) (n : Nat)
    (h : InitEvent.waited n ∈ (initializeTab input).trace) : n ≤ 20 := by
  have htail : InitEvent.waited n ∈ initTailTrace input := by
    simp only [initializeTab, initTailTrace, List.mem_append, List.mem_cons] at h ⊢
    rcases h with h | h
    · exact absurd h (waited_not_mem_initHeaderTrace n input.viewerOpen input.masonry)
    · rcases h with h | h
      · exact absurd h (by simp)
      · exact h
  simp only [initTailTrace, List.mem_append] at htail
  rcases htail with h | h
  · exact absurd h (waited_not_mem_loadPhaseTrace n input.tab input.hasTabDataCb input.loadResult)
  · have := waited_mem_initPhaseTrace n input.tab
      (postLoadItemsData input.tab input.loadResult) input.availAt h
    subst this
    exact waitRetries_le_twenty input.availAt

/-- Everything `initializeTab` does after installing the new tab's state
contains no `cancelLoad` and no `destroy` call. -/
theorem cleanup_not_mem_initTailTrace (input : InitInput) :
    InitEvent.cancelLoad ∉ initTailTrace input ∧ InitEvent.destroy ∉ initTailTrace input := by
  unfold initTailTrace loadPhaseTrace initPhaseTrace
  constructor <;>
  · intro h
    simp only [List.mem_append] at h
    rcases h with h | h
    · split at h
      · simp at h
      · simp only [List.mem_append, List.mem_cons, List.mem_singleton] at h
        cases hlr : input.loadResult <;> split at h <;> simp_all [hlr]
    · split at h
      · simp at h
      · split at h <;> simp_all

/-- C3: when a masonry instance exists, `initializeTab` calls `cancelLoad`
exactly when the instance reports `isLoading`, calls `destroy`
unconditionally, and performs both — together with closing the overlay —
strictly before the new tab's state is installed (they sit in the trace
prefix ahead of `installState` and nowhere after it); the `onUnmounted`
hook likewise calls `cancelLoad` exactly when loading and `destroy`
unconditionally. -/
theorem initializeTab_cleanup_before_state_install (input : InitInput)
    (m : MasonryInst) (hasCb : Bool) (hm : input.masonry = some m) :
    ((initializeTab input).trace =
        (if input.viewerOpen then [InitEvent.closeViewer] else [])
          ++ (if m.isLoading then [InitEvent.cancelLoad] else [])
          ++ InitEvent.destroy :: InitEvent.installState :: initTailTrace input
      ∧ (InitEvent.cancelLoad ∈ (initializeTab input).trace ↔ m.isLoading = true)
      ∧ InitEvent.destroy ∈ (initializeTab input).trace
      ∧ InitEvent.cancelLoad ∉ initTailTrace input
      ∧ InitEvent.destroy ∉ initTailTrace input)
    ∧ (InitEvent.cancelLoad ∈ onUnmountedTrace hasCb (some m) ↔ m.isLoading = true)
    ∧ InitEvent.destroy ∈ onUnmountedTrace hasCb (some m) := by
  have htr : (initializeTab input).trace =
      (if input.viewerOpen then [InitEvent.closeViewer] else [])
        ++ (if m.isLoading then [InitEvent.cancelLoad] else [])
        ++ InitEvent.destroy :: InitEvent.installState :: initTailTrace input := by
    show initHeaderTrace input.viewerOpen input.masonry
        ++ InitEvent.installState :: initTailTrace input = _
    rw [hm]
    unfold initHeaderTrace
    simp
  refine ⟨⟨htr, ?_, ?_, (cleanup_not_mem_initTailTrace input).1,
      (cleanup_not_mem_initTailTrace input).2⟩, ?_, ?_⟩
  · rw [htr]
    cases hl : m.isLoading <;>
      simp [List.mem_append, cleanup_not_mem_initTailTrace input |>.1]
  · rw [htr]
    simp [List.mem_append]
  · unfold onUnmountedTrace
    cases hl : m.isLoading <;> cases hasCb <;> simp [hl]
  · unfold onUnmountedTrace
    cases hl : m.isLoading <;> cases hasCb <;> simp [hl]

/-- Witness for C3 at a concrete input: a loading masonry instance on a tab
switch. -/
theorem initializeTab_cleanup_before_state_install_witness :
    (InitEvent.cancelLoad ∈
        (initializeTab ⟨⟨7, ⟨some "svc", none, none⟩, [1], []⟩, some ⟨true⟩, true, true,
          Except.ok [⟨1, "a"⟩], fun _ => false⟩).trace
      ↔ (⟨true⟩ : MasonryInst).isLoading = true)
    ∧ InitEvent.destroy ∈
        (initializeTab ⟨⟨7, ⟨some "svc", none, none⟩, [1], []⟩, some ⟨true⟩, true, true,
          Except.ok [⟨1, "a"⟩], fun _ => false⟩).trace := by
  have h := initializeTab_cleanup_before_state_install
    ⟨⟨7, ⟨some "svc", none, none⟩, [1], []⟩, some ⟨true⟩, true, true,
      Except.ok [⟨1, "a"⟩], fun _ => false⟩ ⟨true⟩ true rfl
  exact ⟨h.1.2.1, h.1.2.2.1⟩

/-- C5: when `tab.fileIds` is non-empty and the `loadTabItems` collaborator
rejects, `initializeTab` recovers locally — `tab.itemsData` becomes the
empty list and the run still completes (reaching the final
`isTabRestored = false` write instead of re-throwing) — and the
tab-data-loading flag is cleared via `onTabDataLoadingChange(false)` on the
success and the failure path alike. -/
theorem initializeTab_recovers_from_load_failure (input : InitInput) (e : String)
    (hfi : input.tab.fileIds ≠ []) (hcb : input.hasTabDataCb = true) :
    (input.loadResult = Except.error e →
        (initializeTab input).tabItemsData = []
          ∧ (initializeTab input).isTabRestored = false)
      ∧ InitEvent.tabDataLoading false ∈ (initializeTab input).trace := by
  constructor
  · intro herr
    refine ⟨?_, rfl⟩
    show postLoadItemsData input.tab input.loadResult = []
    unfold postLoadItemsData
    simp [herr, List.isEmpty_iff, hfi]
  · show InitEvent.tabDataLoading false ∈
      initHeaderTrace input.viewerOpen input.masonry
        ++ InitEvent.installState :: initTailTrace input
    simp only [initTailTrace, loadPhaseTrace, List.mem_append, List.mem_cons]
    refine Or.inr (Or.inr (Or.inl ?_))
    simp [List.isEmpty_iff, hfi, hcb]

/-- Witness for C5 at a concrete input: a rejected `loadTabItems` call. -/
theorem initializeTab_recovers_from_load_failure_witness :
    ((Except.error "network down" : Except String (List MasonryItem)) = Except.error "network down" →
        (initializeTab ⟨⟨3, ⟨some "svc", none, none⟩, [4, 5], []⟩, none, false, true,
            Except.error "network down", fun _ => true⟩).tabItemsData = []
          ∧ (initializeTab ⟨⟨3, ⟨some "svc", none, none⟩, [4, 5], []⟩, none, false, true,
              Except.error "network down", fun _ => true⟩).isTabRestored = false)
      ∧ InitEvent.tabDataLoading false ∈
          (initializeTab ⟨⟨3, ⟨some "svc", none, none⟩, [4, 5], []⟩, none, false, true,
            Except.error "network down", fun _ => true⟩).trace :=
  initializeTab_recovers_from_load_failure
    ⟨⟨3, ⟨some "svc", none, none⟩, [4, 5], []⟩, none, false, true,
      Except.error "network down", fun _ => true⟩ "network down" (by simp) rfl

/-- Witness for C7 at a concrete input: the collaborator never mounts and
the loop stops after exactly 20 retries. -/
theorem initializeTab_wait_bounded_witness :
    InitEvent.waited 20 ∈
        (initializeTab ⟨⟨7, ⟨some "svc", none, none⟩, [1], []⟩, none, false, false,
          Except.ok [⟨1, "a"⟩], fun _ => false⟩).trace
      ∧ 20 ≤ 20 :=
  ⟨by decide, initializeTab_wait_bounded
    ⟨⟨7, ⟨some "svc", none, none⟩, [1], []⟩, none, false, false,
      Except.ok [⟨1, "a"⟩], fun _ => false⟩ 20 (by decide)⟩

/-- Erasing at the index found by `findIndex` (the backup path of the
remove callback) is erasing the first entry satisfying the predicate. -/
theorem eraseIdx_findIdx?_eq_eraseP (p : MasonryItem → Bool) (l : List MasonryItem) :
    (match l.findIdx? p with | some j => l.eraseIdx j | none => l) = l.eraseP p := by
  induction l with
  | nil => rfl
  | cons a t ih =>
    rw [List.findIdx?_cons]
    by_cases hp : p a
    · simp [hp, List.eraseP_cons]
    · rw [List.findIdx?_succ]
      cases h : t.findIdx? p with
      | none =>
        rw [h] at ih
        simp [h, List.eraseP_cons, hp, ← ih]
      | some k =>
        rw [h] at ih
        simp [h, List.eraseP_cons, hp, ← ih, List.eraseIdx]

/-- With pairwise-distinct ids, erasing the entry matching an id leaves no
entry with that id behind. -/
theorem eraseP_id_no_match (items : List MasonryItem) (n : Nat)
    (hnd : (items.map MasonryItem.id).Nodup)
    (x : MasonryItem) (hx : x ∈ items) (hpx : x.id == n) :
    ∀ y ∈ items.eraseP (fun i => i.id == n), ¬ (y.id == n) = true := by
  obtain ⟨a, l1, l2, hl1, hpa, heq, herase⟩ :=
    List.exists_of_eraseP (p := fun i => i.id == n) hx hpx
  rw [herase]
  intro y hy hpy
  rcases List.mem_append.1 hy with h1 | h2
  · exact hl1 y h1 hpy
  · have hnd2 : (l1.map MasonryItem.id ++ a.id :: l2.map MasonryItem.id).Nodup := by
      rw [heq] at hnd
      simpa using hnd
    have hn : a.id ∉ l2.map MasonryItem.id :=
      (List.nodup_cons.1 (List.nodup_append.1 hnd2).2.1).1
    apply hn
    have hyn : y.id = n := by simpa using hpy
    have han : a.id = n := by simpa using hpa
    rw [han, ← hyn]
    exact List.mem_map.2 ⟨y, h2, rfl⟩

/-- The remove callback is the identity on a list holding no entry with the
target id. -/
theorem removeFromMasonry_no_match (ctx : RemovalCtx) (items : List MasonryItem)
    (item : MasonryItem) (h : ∀ y ∈ items, ¬ (y.id == item.id) = true) :
    removeFromMasonry ctx items item = items := by
  unfold removeFromMasonry masonryRemoveEffect
  have hf : items.find? (fun i => i.id == item.id) = none := List.find?_eq_none.2 h
  have hfi : items.findIdx? (fun i => i.id == item.id) = none := by
    rw [List.findIdx?_eq_none_iff]
    intro x hx
    simpa using h x hx
  simp [hf, hfi]

/-- With pairwise-distinct ids the remove callback, in every configuration
(masonry mounted or not, model binding synced or delayed), equals erasing
the first entry whose id matches. -/
theorem removeFromMasonry_main (ctx : RemovalCtx) (items : List MasonryItem)
    (item : MasonryItem) (hnd : (items.map MasonryItem.id).Nodup) :
    removeFromMasonry ctx items item = items.eraseP (fun i => i.id == item.id) := by
  unfold removeFromMasonry masonryRemoveEffect
  split
  · next hc =>
    simp only [Bool.and_eq_true, Option.isSome_iff_exists] at hc
    obtain ⟨⟨_, x, hx⟩, _⟩ := hc
    have hxm := List.mem_of_find?_eq_some hx
    have hpx := List.find?_some hx
    have hno := eraseP_id_no_match items item.id hnd x hxm hpx
    have hfi : (items.eraseP (fun i => i.id == item.id)).findIdx?
        (fun i => i.id == item.id) = none := by
      rw [List.findIdx?_eq_none_iff]
      intro y hy
      simpa using hno y hy
    simp [hfi]
  · exact eraseIdx_findIdx?_eq_eraseP _ items

/-- C10: on a list with pairwise-distinct ids, the `remove-from-masonry`
callback handed to the `FileViewer` removes exactly the (at most one) entry
whose id matches the given item — one application removes at most one
entry — and applying it again when no entry with that id remains leaves
the list unchanged, so the callback is idempotent. -/
theorem removeFromMasonry_idempotent (ctx : RemovalCtx) (items : List MasonryItem)
    (item : MasonryItem) (hnd : (items.map MasonryItem.id).Nodup) :
    removeFromMasonry ctx items item = items.eraseP (fun i => i.id == item.id)
      ∧ items.length ≤ (removeFromMasonry ctx items item).length + 1
      ∧ ((∀ i ∈ items, i.id ≠ item.id) → removeFromMasonry ctx items item = items)
      ∧ removeFromMasonry ctx (removeFromMasonry ctx items item) item
          = removeFromMasonry ctx items item := by
  have hmain := removeFromMasonry_main ctx items item hnd
  refine ⟨hmain, ?_, ?_, ?_⟩
  · rw [hmain]
    have h := List.le_length_eraseP (p := fun i => i.id == item.id) items
    omega
  · intro h
    apply removeFromMasonry_no_match
    intro y hy
    simp [h y hy]
  · rw [hmain]
    apply removeFromMasonry_no_match
    by_cases hex : ∃ x ∈ items, (x.id == item.id) = true
    · obtain ⟨x, hx, hpx⟩ := hex
      exact eraseP_id_no_match items item.id hnd x hx hpx
    · have hall : ∀ a ∈ items, ¬ ((fun i => i.id == item.id) a = true) :=
        fun a ha hc => hex ⟨a, ha, hc⟩
      rw [List.eraseP_of_forall_not hall]
      intro y hy hc
      exact hex ⟨y, hy, hc⟩

/-- Witness for C10 at a concrete input. -/
theorem removeFromMasonry_idempotent_witness :
    removeFromMasonry ⟨true, true⟩ [⟨1, "a"⟩, ⟨2, "b"⟩] ⟨2, "z"⟩
        = List.eraseP (fun i => i.id == (⟨2, "z"⟩ : MasonryItem).id) [⟨1, "a"⟩, ⟨2, "b"⟩]
      ∧ ([⟨1, "a"⟩, ⟨2, "b"⟩] : List MasonryItem).length
          ≤ (removeFromMasonry ⟨true, true⟩ [⟨1, "a"⟩, ⟨2, "b"⟩] ⟨2, "z"⟩).length + 1
      ∧ ((∀ i ∈ ([⟨1, "a"⟩, ⟨2, "b"⟩] : List MasonryItem), i.id ≠ (⟨2, "z"⟩ : MasonryItem).id) →
          removeFromMasonry ⟨true, true⟩ [⟨1, "a"⟩, ⟨2, "b"⟩] ⟨2, "z"⟩ = [⟨1, "a"⟩, ⟨2, "b"⟩])
      ∧ removeFromMasonry ⟨true, true⟩
            (removeFromMasonry ⟨true, true⟩ [⟨1, "a"⟩, ⟨2, "b"⟩] ⟨2, "z"⟩) ⟨2, "z"⟩
          = removeFromMasonry ⟨true, true⟩ [⟨1, "a"⟩, ⟨2, "b"⟩] ⟨2, "z"⟩ :=
  removeFromMasonry_idempotent ⟨true, true⟩ [⟨1, "a"⟩, ⟨2, "b"⟩] ⟨2, "z"⟩ (by decide)

/-- C9: a `handleMasonryReaction` call whose file id is not in the item
list performs no `removeItem` call (the list stays unchanged) and binds no
restore callback, yet still queues the reaction — with no captured item,
no preview URL and index `-1` — and still emits `onReaction` to the
parent. -/
theorem handleMasonryReaction_absent_id (items : List MasonryItem) (tabId : Option Nat)
    (fileId : Nat) (t : RType) (h : ∀ i ∈ items, i.id ≠ fileId) :
    handleMasonryReaction items tabId fileId t =
      [RQEvent.queueReactionCall fileId t none false tabId (-1) none,
        RQEvent.onReactionEmit fileId t] := by
  unfold handleMasonryReaction
  have hf : items.find? (fun i => i.id == fileId) = none := by
    rw [List.find?_eq_none]
    intro x hx
    simp [h x hx]
  simp [hf]

/-- Witness for C9 at a concrete input. -/
theorem handleMasonryReaction_absent_id_witness :
    handleMasonryReaction [⟨2, "b"⟩] (some 7) 1 RType.funny =
      [RQEvent.queueReactionCall 1 RType.funny none false (some 7) (-1) none,
        RQEvent.onReactionEmit 1 RType.funny] :=
  handleMasonryReaction_absent_id [⟨2, "b"⟩] (some 7) 1 RType.funny (by decide)

/-- C2 as amended: the restore callback bound for a cancelled queued
reaction leaves the item list unchanged when the owning tab is no longer
active, and when an item with the captured id is already present;
otherwise the captured item is reinserted at index
`min(originalIndex, currentLength)` — clamped, never out of bounds — and a
collaborator call that reflows the visible list is made exactly when a
masonry instance with a `restore`, `add`, `insert` or `refreshLayout`
capability is mounted (with no such instance the item is reinserted
without a reflow). -/
theorem restoreItemCallback_behavior (item : MasonryItem) (idx : Nat) (tid : Nat)
    (act : Nat → Bool) (items : List MasonryItem) (m : Option MasonryCaps) :
    (act tid = false → restoreItemCallback item idx tid act items m = (items, []))
      ∧ ((items.findIdx? (fun i => i.id == item.id)).isSome = true →
          restoreItemCallback item idx tid act items m = (items, []))
      ∧ (act tid = true → (items.findIdx? (fun i => i.id == item.id)).isSome = false →
          (restoreItemCallback item idx tid act items m).1
              = spliceInsert items (min idx items.length) item
            ∧ ((restoreItemCallback item idx tid act items m).2 ≠ []
                ↔ (match m with
                    | some c => c.hasRestore || c.hasAdd || c.hasInsert || c.hasRefreshLayout
                    | none => false) = true)) := by
  refine ⟨?_, ?_, ?_⟩
  · intro h
    simp [restoreItemCallback, h]
  · intro h
    by_cases ha : act tid
    · simp [restoreItemCallback, ha, h]
    · simp [restoreItemCallback, ha]
  · intro ha hn
    rcases m with _ | c
    · simp [restoreItemCallback, ha, hn]
    · obtain ⟨r, a, i, rl⟩ := c
      cases r <;> cases a <;> cases i <;> cases rl <;>
        simp [restoreItemCallback, ha, hn, capInsert]

/-- Counterexample to C2 as stated: with the owning tab active and the item
absent, but no masonry instance mounted, the callback does reinsert the
captured item yet makes no reflow call at all — the claim's unconditional
"a layout reflow of the visible list is triggered" fails at this input. -/
theorem restoreItemCallback_no_reflow_cex :
    (fun _ => true : Nat → Bool) 1 = true
      ∧ (([] : List MasonryItem).findIdx?
          (fun i => i.id == (⟨1, "a"⟩ : MasonryItem).id)).isSome = false
      ∧ (restoreItemCallback ⟨1, "a"⟩ 0 1 (fun _ => true) [] none).1 = [⟨1, "a"⟩]
      ∧ (restoreItemCallback ⟨1, "a"⟩ 0 1 (fun _ => true) [] none).2 = [] := by
  decide

/-- Witness for the amended C2 at a concrete input: active tab, item
absent, a masonry instance offering `restore` — the item is inserted at
the clamped index and a reflowing collaborator call is made. -/
theorem restoreItemCallback_behavior_witness :
    (restoreItemCallback ⟨1, "a"⟩ 3 2 (fun t => t == 2) [⟨5, "b"⟩]
          (some ⟨true, false, false, false⟩)).1
        = spliceInsert [⟨5, "b"⟩] (min 3 ([⟨5, "b"⟩] : List MasonryItem).length) ⟨1, "a"⟩
      ∧ ((restoreItemCallback ⟨1, "a"⟩ 3 2 (fun t => t == 2) [⟨5, "b"⟩]
            (some ⟨true, false, false, false⟩)).2 ≠ []
          ↔ (true : Bool) = true) :=
  (restoreItemCallback_behavior ⟨1, "a"⟩ 3 2 (fun t => t == 2) [⟨5, "b"⟩]
    (some ⟨true, false, false, false⟩)).2.2 (by decide) (by decide)

/-- `handleMasonryReaction` always makes its `queueReaction` call, whatever
the list contents. -/
theorem queue_mem_handleMasonryReaction (items : List MasonryItem) (tabId : Option Nat)
    (fid : Nat) (t : RType) :
    ∃ pu hr ii it,
      RQEvent.queueReactionCall fid t pu hr tabId ii it
        ∈ handleMasonryReaction items tabId fid t := by
  unfold handleMasonryReaction
  exact ⟨_, _, _, _, List.mem_append_right _ (List.mem_cons_self _ _)⟩

/-- On an ALT-modified event that resolves to an item present in the list,
`handleAltClickReaction` prevents the default, stops propagation and runs
the full reaction path. -/
theorem handleAltClickReaction_eq (e : MouseEv) (fid : Nat) (items : List MasonryItem)
    (tabId : Option Nat) (t : RType) (ht : altReactionType e = some t)
    (h : (items.find? (fun i => i.id == fid)).isSome = true) :
    handleAltClickReaction e fid items tabId =
      [UIEffect.preventDefault, UIEffect.stopPropagation]
        ++ (handleMasonryReaction items tabId fid t).map UIEffect.reaction := by
  simp [handleAltClickReaction, ht, h]

/-- C6: an ALT-modified mouse gesture on a masonry tile never opens the
overlay; ALT + left click queues a like, ALT + right click / contextmenu a
dislike, ALT + middle click a love, and the event's default browser
behavior is prevented. -/
theorem altClick_maps_to_reactions (g : Gesture) (items : List MasonryItem)
    (tabId : Option Nat) (fid : Nat)
    (h : (items.find? (fun i => i.id == fid)).isSome = true) :
    UIEffect.openOverlay ∉ dispatchGesture true g items tabId (some fid)
      ∧ UIEffect.preventDefault ∈ dispatchGesture true g items tabId (some fid)
      ∧ ∃ pu hr ii it,
          UIEffect.reaction
              (RQEvent.queueReactionCall fid (altGestureReaction g) pu hr tabId ii it)
            ∈ dispatchGesture true g items tabId (some fid) := by
  obtain ⟨pu, hr, ii, it, hmem⟩ :=
    queue_mem_handleMasonryReaction items tabId fid (altGestureReaction g)
  have hmap : UIEffect.reaction
      (RQEvent.queueReactionCall fid (altGestureReaction g) pu hr tabId ii it)
      ∈ (handleMasonryReaction items tabId fid (altGestureReaction g)).map UIEffect.reaction :=
    List.mem_map_of_mem _ hmem
  cases g with
  | leftClick =>
    have he : dispatchGesture true Gesture.leftClick items tabId (some fid) =
        [UIEffect.preventDefault, UIEffect.stopPropagation]
          ++ (handleMasonryReaction items tabId fid RType.like).map UIEffect.reaction := by
      simp [dispatchGesture, onMasonryClick, gestureEvent, handleAltClickOnMasonry]
      exact handleAltClickReaction_eq _ fid items tabId RType.like
        (by simp [altReactionType, gestureEvent]) h
    rw [he]
    refine ⟨?_, ?_, pu, hr, ii, it, ?_⟩
    · simp [List.mem_append, List.mem_map]
    · simp
    · exact List.mem_append_right _ hmap
  | rightClick =>
    have he : dispatchGesture true Gesture.rightClick items tabId (some fid) =
        UIEffect.preventDefault :: ([UIEffect.preventDefault, UIEffect.stopPropagation]
          ++ (handleMasonryReaction items tabId fid RType.dislike).map UIEffect.reaction) := by
      simp [dispatchGesture, onMasonryClick, gestureEvent, handleAltClickOnMasonry]
      exact handleAltClickReaction_eq _ fid items tabId RType.dislike
        (by simp [altReactionType, gestureEvent]) h
    rw [he]
    refine ⟨?_, ?_, pu, hr, ii, it, ?_⟩
    · simp [List.mem_append, List.mem_map]
    · simp
    · exact List.mem_cons_of_mem _ (List.mem_append_right _ hmap)
  | middleClick =>
    have he : dispatchGesture true Gesture.middleClick items tabId (some fid) =
        [UIEffect.preventDefault, UIEffect.stopPropagation]
          ++ (handleMasonryReaction items tabId fid RType.love).map UIEffect.reaction := by
      simp [dispatchGesture, onMasonryMouseDown, gestureEvent, handleAltClickOnMasonry]
      exact handleAltClickReaction_eq _ fid items tabId RType.love
        (by simp [altReactionType, gestureEvent]) h
    rw [he]
    refine ⟨?_, ?_, pu, hr, ii, it, ?_⟩
    · simp [List.mem_append, List.mem_map]
    · simp
    · exact List.mem_append_right _ hmap

/-- Witness for C6 at a concrete input: ALT + middle click on the tile of
item 1. -/
theorem altClick_maps_to_reactions_witness :
    UIEffect.openOverlay ∉
        dispatchGesture true Gesture.middleClick [⟨1, "a"⟩] (some 7) (some 1)
      ∧ UIEffect.preventDefault ∈
          dispatchGesture true Gesture.middleClick [⟨1, "a"⟩] (some 7) (some 1)
      ∧ ∃ pu hr ii it,
          UIEffect.reaction
              (RQEvent.queueReactionCall 1 (altGestureReaction Gesture.middleClick) pu hr
                (some 7) ii it)
            ∈ dispatchGesture true Gesture.middleClick [⟨1, "a"⟩] (some 7) (some 1) :=
  altClick_maps_to_reactions Gesture.middleClick [⟨1, "a"⟩] (some 7) 1 (by decide)

end BrowseTabContent
